import Mathlib

/-!
Verification development for the DIYPiDNG core (`src/pidng/core.py`).

The Python code is shallowly embedded: numpy arrays become a record of a
dtype marker, a shape and a flat list of sample values; Python exceptions
become `Except String`; the file-system side effects of `DNGBASE.convert`
are recorded in an explicit effect trace.  Machine integers are `Nat` with
explicit truncation (`% 256`) where the code narrows a value.
-/

namespace PiDNG

/-- Element-width marker of a numpy array (`np.uint8`, `np.uint16`, or any
other dtype an upstream caller might hand in). -/
inductive DType where
  | uint8
  | uint16
  | other
deriving DecidableEq

/-- Shallow model of a numpy `ndarray`: dtype marker, shape, flat data. -/
structure NDArray where
  dtype : DType
  shape : List Nat
  data : List Nat
deriving DecidableEq

/-- Shallow model of `DNGTags`: only the three mandatory tags matter to the
validation and processing code under scrutiny; each holds `rawValue[0]`
when present and `none` when `tags.get(...)` would return `None`. -/
structure DNGTags where
  imageWidth : Option Nat
  imageLength : Option Nat
  bitsPerSample : Option Nat
deriving DecidableEq

/-- Converter state (`self` of `DNGBASE`): `__init__` sets `compress`,
`path`, `tags` and `filter` to `None`; `tags = none` models the
unconfigured state. -/
structure DNGState where
  tags : Option DNGTags
  compress : Bool
  path : String
  filter : Option (NDArray → NDArray)

/-- The state produced by `DNGBASE.__init__` (everything unset). -/
def initState : DNGState := { tags := none, compress := false, path := "", filter := none }

/-- Embedding of `DNGBASE.__tags_condition__`: reject a tag set that lacks
`ImageWidth`, `ImageLength` or `BitsPerSample`, in that order. -/
def tags_condition (tags : DNGTags) : Except String Unit :=
  if tags.imageWidth = none then .error "No width is defined in tags."
  else if tags.imageLength = none then .error "No height is defined in tags."
  else if tags.bitsPerSample = none then .error "Bit per pixel is not defined."
  else .ok ()

/-- Embedding of `DNGBASE.options`: validate the tags, then store tags,
compression flag and path into the state. -/
def options (s : DNGState) (tags : DNGTags) (path : String) (compress : Bool) :
    Except String DNGState :=
  match tags_condition tags with
  | .error e => .error e
  | .ok _ => .ok { s with tags := some tags, compress := compress, path := path }

/-- Embedding of `DNGBASE.__data_condition__`: error unless the incoming
array is uint16.  The `.ok` payload is the (empty) list of warnings. -/
def base_data_condition (data : NDArray) : Except String (List String) :=
  if data.dtype ≠ DType.uint16 then
    .error "RAW Data is not in correct format. Must be uint16_t Numpy Array. "
  else .ok []

/-- Embedding of `RPICAM2DNG.__data_condition__`: `warnings.warn` never
raises, so the result is always `.ok`, carrying the warning text when the
dtype is not uint8. -/
def rpicam_data_condition (data : NDArray) : Except String (List String) :=
  .ok (if data.dtype ≠ DType.uint8 then
        ["RAW Data is not in correct format. Already unpacked? "]
      else [])

/-- Embedding of `DNGBASE.__filter__`: apply the optional user filter and
check the result immediately (same shape as the input, uint16 dtype),
raising the corresponding error message otherwise.  A Python filter could
also return a non-array (`TypeError` branch); that case is unrepresentable
in this typed model. -/
def filterStep (rawFrame : NDArray) (filt : Option (NDArray → NDArray)) :
    Except String NDArray :=
  match filt with
  | none => .ok rawFrame
  | some f =>
    if (f rawFrame).shape ≠ rawFrame.shape then .error "return array does not have the same shape!"
    else if (f rawFrame).dtype ≠ DType.uint16 then .error "array data type is invalid!"
    else .ok (f rawFrame)

/-- Little-endian byte reinterpretation of a uint16 sample array, the
meaning of `rawFrame.tobytes()` on a native little-endian machine. -/
def toBytesLE : List Nat → List Nat
  | [] => []
  | v :: rest => v % 256 :: v / 256 % 256 :: toBytesLE rest

/-- Modelled from the spec: `packing.pack10` lives in `src/pidng/packing.py`,
which is absent from the provided sources.  Per the spec, each group of 4
samples (4 * 10 bits = 5 bytes) is concatenated MSB-first into a bit stream
and re-sliced into bytes. -/
def pack10 : List Nat → List Nat
  | s0 :: s1 :: s2 :: s3 :: rest =>
    let v := ((s0 % 1024) <<< 30) ||| ((s1 % 1024) <<< 20) ||| ((s2 % 1024) <<< 10) ||| (s3 % 1024)
    ((v >>> 32) &&& 255) :: ((v >>> 24) &&& 255) :: ((v >>> 16) &&& 255) ::
      ((v >>> 8) &&& 255) :: (v &&& 255) :: pack10 rest
  | _ => []

/-- Modelled from the spec: `packing.pack12` is absent from the provided
sources.  Per the spec, each group of 2 samples (2 * 12 bits = 3 bytes) is
concatenated MSB-first and re-sliced into bytes. -/
def pack12 : List Nat → List Nat
  | s0 :: s1 :: rest =>
    let v := ((s0 % 4096) <<< 12) ||| (s1 % 4096)
    ((v >>> 16) &&& 255) :: ((v >>> 8) &&& 255) :: (v &&& 255) :: pack12 rest
  | _ => []

/-- Modelled from the spec: `packing.pack14` is absent from the provided
sources.  Per the spec, each group of 4 samples (4 * 14 bits = 7 bytes) is
concatenated MSB-first and re-sliced into bytes. -/
def pack14 : List Nat → List Nat
  | s0 :: s1 :: s2 :: s3 :: rest =>
    let v := ((s0 % 16384) <<< 42) ||| ((s1 % 16384) <<< 28) ||| ((s2 % 16384) <<< 14) ||| (s3 % 16384)
    ((v >>> 48) &&& 255) :: ((v >>> 40) &&& 255) :: ((v >>> 32) &&& 255) :: ((v >>> 24) &&& 255) ::
      ((v >>> 16) &&& 255) :: ((v >>> 8) &&& 255) :: (v &&& 255) :: pack14 rest
  | _ => []

/-- Embedding of the strip (tile) computation of `DNGBASE.__process__` in
the uncompressed case: the `if/elif` chain over the bit depth.  When no
branch matches, the local `tile` is never assigned and the later use raises
`UnboundLocalError`; that fall-through is the `none` result here. -/
def processTile (bpp : Nat) (rawFrame : List Nat) : Option (List Nat) :=
  if bpp = 8 then some (rawFrame.map (fun v => v % 256))
  else if bpp = 10 then some (pack10 rawFrame)
  else if bpp = 12 then some (pack12 rawFrame)
  else if bpp = 14 then some (pack14 rawFrame)
  else if bpp = 16 then some (toBytesLE rawFrame)
  else none

/-- Modelled from the spec: the DNG container (`src/pidng/dng.py`) is absent
from the provided sources.  It serializes header, IFD and the strip into one
contiguous byte buffer; its exact bytes are irrelevant to every claim here,
so the serialization is kept abstract as the strip bytes themselves. -/
def containerSerialize (tile : List Nat) : List Nat := tile

/-- The overridable parts of the conversion pipeline (Python virtual
methods on `DNGBASE`, plus the external LJ92 codec `pack16tolj`, which is
a C extension outside this core). -/
structure Pipeline where
  data_condition : NDArray → Except String (List String)
  unpack_pixels : NDArray → NDArray
  compressor : List Nat → List Nat

/-- The `DNGBASE` pipeline: uint16-only validation, identity unpack.  The
compressor stand-in is never interpreted by any claim (it is an external
collaborator). -/
def basePipeline : Pipeline :=
  { data_condition := base_data_condition
  , unpack_pixels := fun d => d
  , compressor := fun _ => [] }

/-- Embedding of `DNGBASE.__process__`: read width, height and bit depth
from the tags (a missing one would raise `AttributeError` in Python), build
the strip, and serialize the container buffer. -/
def processBuffer (pl : Pipeline) (rawFrame : NDArray) (tags : DNGTags) (compress : Bool) :
    Except String (List Nat) :=
  match tags.imageWidth, tags.imageLength, tags.bitsPerSample with
  | some _width, some _length, some bpp =>
    let tile : Option (List Nat) :=
      if compress then some (pl.compressor rawFrame.data) else processTile bpp rawFrame.data
    match tile with
    | none => .error "UnboundLocalError: local variable tile referenced before assignment"
    | some t => .ok (containerSerialize t)
  | _, _, _ => .error "AttributeError: missing mandatory tag"

/-- File-system side effects that `DNGBASE.convert` can perform. -/
inductive FileEffect where
  | openWrite (path : String)
  | write (path : String) (bytes : List Nat)
deriving DecidableEq

/-- Return value of `DNGBASE.convert`: the output path when a file was
written, else the raw DNG byte buffer. -/
inductive ConvertOutput where
  | path (p : String)
  | buffer (bytes : List Nat)
deriving DecidableEq

/-- Meaning of the Python `str.endswith` test, expressed on the character
sequence of the strings. -/
def strEndsWith (s suf : String) : Bool :=
  decide (suf.data.length ≤ s.data.length) &&
    decide (s.data.drop (s.data.length - suf.data.length) = suf.data)

/-- Meaning of the `.dng` suffix handling in `convert`: append the suffix
unless already present (`filename.endswith(".dng")`). -/
def ensureDngSuffix (filename : String) : String :=
  if strEndsWith filename ".dng" then filename else filename ++ ".dng"

/-- Meaning of `os.path.join(dir, file)` for the relative paths this code
produces. -/
def joinPath (d : String) (f : String) : String :=
  if d = "" then f
  else if strEndsWith d "/" then d ++ f
  else d ++ "/" ++ f

/-- Embedding of `DNGBASE.convert`: check configuration, validate, unpack,
filter, process; only then, and only when a filename was supplied, open and
write the output file.  The first component records the file effects in
program order. -/
def convert (pl : Pipeline) (s : DNGState) (image : NDArray) (filename : String) :
    List FileEffect × Except String ConvertOutput :=
  match s.tags with
  | none => ([], .error "Options have not been set!")
  | some tags =>
    match pl.data_condition image with
    | .error e => ([], .error e)
    | .ok _warnings =>
      match filterStep (pl.unpack_pixels image) s.filter with
      | .error e => ([], .error e)
      | .ok filtered =>
        match processBuffer pl filtered tags s.compress with
        | .error e => ([], .error e)
        | .ok buf =>
          if 0 < filename.length then
            ([FileEffect.openWrite (joinPath s.path (ensureDngSuffix filename)),
              FileEffect.write (joinPath s.path (ensureDngSuffix filename)) buf],
             .ok (ConvertOutput.path (joinPath s.path (ensureDngSuffix filename))))
          else ([], .ok (ConvertOutput.buffer buf))

/-- A concrete tag set configuring a 2 x 1 image at bit depth 8, for the
concrete evaluations below. -/
def tagsSmall : DNGTags := { imageWidth := some 2, imageLength := some 1, bitsPerSample := some 8 }

/-- A converter state configured with `tagsSmall`, output directory `p`,
no compression and no filter. -/
def cfgState : DNGState := { tags := some tagsSmall, compress := false, path := "p", filter := none }

/-- A concrete uint16 frame for the concrete evaluations below. -/
def img0 : NDArray := { dtype := DType.uint16, shape := [1, 2], data := [1, 2] }

/-- Embedding of the `ver` dispatch in `RPICAM2DNG.__unpack_pixels__`:
`ver` starts at 6 and the `if/elif` chain reassigns it for the six known
heights, so any unknown height keeps 6. -/
def sensorVer (height : Nat) : Nat :=
  if height = 1080 then 4
  else if height = 1520 then 5
  else if height = 3040 then 6
  else if height = 760 then 3
  else if height = 2464 then 2
  else if height = 1944 then 1
  else 6

/-- Embedding of the reshape/crop dictionary of `RPICAM2DNG.__unpack_pixels__`
(`sensorVer` only ever produces 1..6, so the final branch is the `ver = 6`
entry). -/
def geometry (ver : Nat) : (Nat × Nat) × (Nat × Nat) :=
  if ver = 1 then ((1952, 3264), (1944, 3240))
  else if ver = 2 then ((2480, 4128), (2464, 4100))
  else if ver = 3 then ((768, 1280), (760, 1265))
  else if ver = 4 then ((1080, 3072), (1080, 3042))
  else if ver = 5 then ((1520, 3072), (1520, 3042))
  else ((3040, 6112), (3040, 6084))

/-- Split a flat list into consecutive rows of `n` elements, the meaning of
`data.reshape(rows, n)` on a flat buffer. -/
def chunksOf (n : Nat) (l : List Nat) : List (List Nat) :=
  if h : n = 0 ∨ l = [] then []
  else (l.take n) :: chunksOf n (l.drop n)
termination_by l.length
decreasing_by
  push_neg at h
  have h1 : 0 < n := Nat.pos_of_ne_zero h.1
  have h2 : 0 < l.length := List.length_pos.mpr h.2
  rw [List.length_drop]
  omega

/-- Meaning of `data.reshape(reshape)[:crop[0], :crop[1]]` for a geometry
`g = (reshape, crop)`. -/
def croppedRows (g : (Nat × Nat) × (Nat × Nat)) (flat : List Nat) : List (List Nat) :=
  ((chunksOf g.1.2 flat).take g.2.1).map (fun r => r.take g.2.2)

/-- Elementwise meaning, on one group of 5 columns, of the legacy branch
(`ver < 4`) of `RPICAM2DNG.__unpack_pixels__`: `astype(np.uint16) << 2`
left-shifts every column, the 5th column included; each data column at
offset `byte` is then OR-ed with the slice of the (shifted) 5th column
right-shifted by `(byte+1)*2` and masked to 2 bits; the 5th column is then
deleted. -/
def legacyGroup (b0 b1 b2 b3 b4 : Nat) : List Nat :=
  [(b0 <<< 2) ||| (((b4 <<< 2) >>> 2) &&& 3),
   (b1 <<< 2) ||| (((b4 <<< 2) >>> 4) &&& 3),
   (b2 <<< 2) ||| (((b4 <<< 2) >>> 6) &&& 3),
   (b3 <<< 2) ||| (((b4 <<< 2) >>> 8) &&& 3)]

/-- A whole row under the legacy scheme: the column slices `byte::5` and
`4::5` pair the columns up groupwise, so the vectorized numpy statements
act as `legacyGroup` on each consecutive group of 5 columns. -/
def legacyRow : List Nat → List Nat
  | b0 :: b1 :: b2 :: b3 :: b4 :: rest => legacyGroup b0 b1 b2 b3 b4 ++ legacyRow rest
  | _ => []

/-- The legacy unpacking step exactly as the claim words it: only the four
data columns are left-shifted by 2, and the 2-bit slice is extracted from
the 5th column via a right shift of `(offset+1)*2` bits masked to 2 bits. -/
def legacyGroupClaim (b0 b1 b2 b3 b4 : Nat) : List Nat :=
  [(b0 <<< 2) ||| ((b4 >>> 2) &&& 3),
   (b1 <<< 2) ||| ((b4 >>> 4) &&& 3),
   (b2 <<< 2) ||| ((b4 >>> 6) &&& 3),
   (b3 <<< 2) ||| ((b4 >>> 8) &&& 3)]

/-- Elementwise meaning, on one triplet of columns, of the modern branch
(`ver >= 4`): even output sample `(b0 << 4) + (b2 & 0x0F)` and odd output
sample `(b1 << 4) + ((b2 >> 4) & 0x0F)`. -/
def modernGroup (b0 b1 b2 : Nat) : List Nat :=
  [(b0 <<< 4) + (b2 &&& 15), (b1 <<< 4) + ((b2 >>> 4) &&& 15)]

/-- A whole row under the modern scheme: the slices `::3`, `1::3`, `2::3`
on the input and `::2`, `1::2` on the output pair the columns up so that
each consecutive triplet yields one even and one odd sample. -/
def modernRow : List Nat → List Nat
  | b0 :: b1 :: b2 :: rest => modernGroup b0 b1 b2 ++ modernRow rest
  | _ => []

/-- Embedding of `RPICAM2DNG.__unpack_pixels__`: passthrough unless the
input is uint8; otherwise reshape, crop and apply the scheme selected by
the declared image height. -/
def unpack_pixels (height : Nat) (img : NDArray) : NDArray :=
  if img.dtype ≠ DType.uint8 then img
  else
    let ver := sensorVer height
    let g := geometry ver
    let rows := croppedRows g img.data
    if ver < 4 then
      { dtype := DType.uint16, shape := [g.2.1, g.2.2 * 4 / 5],
        data := (rows.map legacyRow).flatten }
    else
      { dtype := DType.uint16, shape := [g.2.1, g.2.2 / 3 * 2],
        data := (rows.map modernRow).flatten }

/-! Helper lemmas about the bit operations the unpackers use. -/

lemma and_three_eq_mod (x : Nat) : x &&& 3 = x % 4 := by
  have h := Nat.and_pow_two_sub_one_eq_mod x 2
  norm_num at h
  exact h

lemma and_fifteen_eq_mod (x : Nat) : x &&& 15 = x % 16 := by
  have h := Nat.and_pow_two_sub_one_eq_mod x 4
  norm_num at h
  exact h

lemma shiftLeft4_add_eq_or (a r : Nat) (h : r < 16) : a <<< 4 + r = (a <<< 4) ||| r := by
  have h16 : r < 2 ^ 4 := by norm_num; omega
  calc a <<< 4 + r = 2 ^ 4 * a + r := by rw [Nat.shiftLeft_eq, Nat.mul_comm]
    _ = 2 ^ 4 * a ||| r := Nat.mul_add_lt_is_or h16 a
    _ = (a <<< 4) ||| r := by rw [Nat.shiftLeft_eq, Nat.mul_comm]

/-! Theorems settling the claims. -/

/-- C1: a tag set lacking ImageWidth, ImageLength or BitsPerSample makes
`options` fail with the error naming the first absent mandatory tag, and a
converter whose options were never successfully set refuses to convert at
all, so conversion never starts with an incomplete descriptor. -/
theorem options_rejects_missing_mandatory_tags (s : DNGState) (t : DNGTags)
    (path : String) (c : Bool) :
    (t.imageWidth = none →
      options s t path c = .error "No width is defined in tags.") ∧
    (t.imageWidth ≠ none → t.imageLength = none →
      options s t path c = .error "No height is defined in tags.") ∧
    (t.imageWidth ≠ none → t.imageLength ≠ none → t.bitsPerSample = none →
      options s t path c = .error "Bit per pixel is not defined.") ∧
    (∀ (pl : Pipeline) (img : NDArray) (fname : String),
      convert pl { s with tags := none } img fname =
        ([], .error "Options have not been set!")) := by
  refine ⟨?_, ?_, ?_, ?_⟩
  · intro h1
    simp [options, tags_condition, h1]
  · intro h1 h2
    simp [options, tags_condition, h1, h2]
  · intro h1 h2 h3
    simp [options, tags_condition, h1, h2, h3]
  · intro pl img fname
    simp [convert]

/-- C1 witness: a tag set with no width is rejected with the width error. -/
theorem options_rejects_missing_mandatory_tags_witness :
    options initState { imageWidth := none, imageLength := some 1944, bitsPerSample := some 10 }
      "p" false = .error "No width is defined in tags." :=
  (options_rejects_missing_mandatory_tags initState
    { imageWidth := none, imageLength := some 1944, bitsPerSample := some 10 } "p" false).1 rfl

/-- C2 counterexample: the claim extracts the 2-bit slice from the 5th
column via a right shift of `(offset+1)*2` bits while describing only the
4 data columns as left-shifted; on the group `(0,0,0,0,1)` the code
produces `[1,0,0,0]` whereas the formula so read produces `[0,0,0,0]`. -/
theorem legacy_unpack_claim_counterexample :
    legacyGroup 0 0 0 0 1 = [1, 0, 0, 0] ∧
    legacyGroupClaim 0 0 0 0 1 = [0, 0, 0, 0] ∧
    legacyGroup 0 0 0 0 1 ≠ legacyGroupClaim 0 0 0 0 1 := by
  refine ⟨rfl, rfl, ?_⟩
  decide

/-- C2 (amended): under the three legacy-scheme heights the unpacker takes
the legacy branch, processes each group of 5 columns by left-shifting every
column by 2 — the 5th included — OR-ing into data column `offset` the 2-bit
slice of the shifted 5th column right-shifted by `(offset+1)*2` bits
(equivalently, bits `2*offset` and `2*offset+1` of the original 5th byte),
and deletes the 5th column from the output. -/
theorem legacy_unpack_amended (h b0 b1 b2 b3 b4 : Nat) (rest : List Nat)
    (hh : h = 1944 ∨ h = 2464 ∨ h = 760) :
    sensorVer h < 4 ∧
    legacyRow (b0 :: b1 :: b2 :: b3 :: b4 :: rest) =
      legacyGroup b0 b1 b2 b3 b4 ++ legacyRow rest ∧
    legacyGroup b0 b1 b2 b3 b4 =
      [(b0 <<< 2) ||| (b4 &&& 3),
       (b1 <<< 2) ||| ((b4 >>> 2) &&& 3),
       (b2 <<< 2) ||| ((b4 >>> 4) &&& 3),
       (b3 <<< 2) ||| ((b4 >>> 6) &&& 3)] := by
  refine ⟨?_, rfl, ?_⟩
  · rcases hh with rfl | rfl | rfl <;> decide
  · have e1 : ((b4 <<< 2) >>> 2) &&& 3 = b4 &&& 3 := by
      rw [and_three_eq_mod, and_three_eq_mod]; omega
    have e2 : ((b4 <<< 2) >>> 4) &&& 3 = (b4 >>> 2) &&& 3 := by
      rw [and_three_eq_mod, and_three_eq_mod]; omega
    have e3 : ((b4 <<< 2) >>> 6) &&& 3 = (b4 >>> 4) &&& 3 := by
      rw [and_three_eq_mod, and_three_eq_mod]; omega
    have e4 : ((b4 <<< 2) >>> 8) &&& 3 = (b4 >>> 6) &&& 3 := by
      rw [and_three_eq_mod, and_three_eq_mod]; omega
    simp [legacyGroup, e1, e2, e3, e4]

/-- C2 witness: the amended statement instantiated at height 1944 and the
byte group `(1, 2, 3, 4, 180)`. -/
theorem legacy_unpack_amended_witness :
    sensorVer 1944 < 4 ∧
    legacyRow [1, 2, 3, 4, 180] = legacyGroup 1 2 3 4 180 ++ legacyRow [] ∧
    legacyGroup 1 2 3 4 180 =
      [(1 <<< 2) ||| (180 &&& 3),
       (2 <<< 2) ||| ((180 >>> 2) &&& 3),
       (3 <<< 2) ||| ((180 >>> 4) &&& 3),
       (4 <<< 2) ||| ((180 >>> 6) &&& 3)] :=
  legacy_unpack_amended 1944 1 2 3 4 180 [] (Or.inl rfl)

/-- C3: under the three modern-scheme heights the unpacker takes the
modern branch, where each consecutive byte triplet `(b0, b1, b2)` of a
cropped row yields the even sample `(b0 <<< 4) ||| (b2 &&& 15)` and the odd
sample `(b1 <<< 4) ||| ((b2 >>> 4) &&& 15)`, two samples per three bytes. -/
theorem modern_unpack_packs_two_per_three (h b0 b1 b2 : Nat) (rest : List Nat)
    (img : NDArray) (hh : h = 1080 ∨ h = 1520 ∨ h = 3040)
    (hdt : img.dtype = DType.uint8) :
    ¬ sensorVer h < 4 ∧
    modernRow (b0 :: b1 :: b2 :: rest) =
      ((b0 <<< 4) ||| (b2 &&& 15)) :: ((b1 <<< 4) ||| ((b2 >>> 4) &&& 15)) :: modernRow rest ∧
    (unpack_pixels h img).data =
      ((croppedRows (geometry (sensorVer h)) img.data).map modernRow).flatten := by
  have hv : ¬ sensorVer h < 4 := by
    rcases hh with rfl | rfl | rfl <;> decide
  refine ⟨hv, ?_, ?_⟩
  · have o1 : (b0 <<< 4) + (b2 &&& 15) = (b0 <<< 4) ||| (b2 &&& 15) := by
      refine shiftLeft4_add_eq_or b0 (b2 &&& 15) ?_
      rw [and_fifteen_eq_mod]; omega
    have o2 : (b1 <<< 4) + ((b2 >>> 4) &&& 15) = (b1 <<< 4) ||| ((b2 >>> 4) &&& 15) := by
      refine shiftLeft4_add_eq_or b1 ((b2 >>> 4) &&& 15) ?_
      rw [and_fifteen_eq_mod]; omega
    simp [modernRow, modernGroup, o1, o2]
  · simp [unpack_pixels, hdt, hv]

/-- C3 witness: the statement instantiated at height 1080, the triplet
`(1, 2, 171)` and a one-row three-byte uint8 image. -/
theorem modern_unpack_packs_two_per_three_witness :
    ¬ sensorVer 1080 < 4 ∧
    modernRow [1, 2, 171] =
      ((1 <<< 4) ||| (171 &&& 15)) :: ((2 <<< 4) ||| ((171 >>> 4) &&& 15)) :: modernRow [] ∧
    (unpack_pixels 1080 { dtype := DType.uint8, shape := [3], data := [1, 2, 171] }).data =
      ((croppedRows (geometry (sensorVer 1080)) [1, 2, 171]).map modernRow).flatten :=
  modern_unpack_packs_two_per_three 1080 1 2 171 []
    { dtype := DType.uint8, shape := [3], data := [1, 2, 171] } (Or.inl rfl) rfl

/-- Exhaustive case analysis of `convert`: it either fails with an empty
effect trace, returns the bare buffer with an empty effect trace, or (for a
non-empty filename) opens and writes exactly one output file. -/
lemma convert_cases (pl : Pipeline) (s : DNGState) (img : NDArray) (fname : String) :
    (∃ e, convert pl s img fname = ([], Except.error e)) ∨
    (∃ buf, fname.length = 0 ∧
      convert pl s img fname = ([], Except.ok (ConvertOutput.buffer buf))) ∨
    (∃ buf, 0 < fname.length ∧
      convert pl s img fname =
        ([FileEffect.openWrite (joinPath s.path (ensureDngSuffix fname)),
          FileEffect.write (joinPath s.path (ensureDngSuffix fname)) buf],
         Except.ok (ConvertOutput.path (joinPath s.path (ensureDngSuffix fname))))) := by
  cases hs : s.tags with
  | none => exact Or.inl ⟨"Options have not been set!", by simp [convert, hs]⟩
  | some tags =>
    cases hd : pl.data_condition img with
    | error e => exact Or.inl ⟨e, by simp [convert, hs, hd]⟩
    | ok w =>
      cases hf : filterStep (pl.unpack_pixels img) s.filter with
      | error e => exact Or.inl ⟨e, by simp [convert, hs, hd, hf]⟩
      | ok filtered =>
        cases hp : processBuffer pl filtered tags s.compress with
        | error e => exact Or.inl ⟨e, by simp [convert, hs, hd, hf, hp]⟩
        | ok buf =>
          by_cases hl : 0 < fname.length
          · exact Or.inr (Or.inr ⟨buf, hl, by simp [convert, hs, hd, hf, hp, hl]⟩)
          · exact Or.inr (Or.inl ⟨buf, by omega, by simp [convert, hs, hd, hf, hp, hl]⟩)

/-- C4 counterexample: with a configured state and the filename `out`, the
conversion operation itself appends the `.dng` suffix, joins the configured
path and writes the output file, so file writing and filename handling are
not external to `convert`. -/
theorem convert_writes_file_counterexample :
    (convert basePipeline cfgState img0 "out").1 =
      [FileEffect.openWrite "p/out.dng", FileEffect.write "p/out.dng" [1, 2]] ∧
    (convert basePipeline cfgState img0 "out").1 ≠ [] := by
  have h1 : ensureDngSuffix "out" = "out.dng" := by decide
  have h2 : joinPath "p" "out.dng" = "p/out.dng" := by decide
  have h3 : (convert basePipeline cfgState img0 "out").1 =
      [FileEffect.openWrite "p/out.dng", FileEffect.write "p/out.dng" [1, 2]] := by
    simp [convert, cfgState, basePipeline, tagsSmall, img0, base_data_condition,
      filterStep, processBuffer, processTile, containerSerialize, h1, h2, String.length]
  refine ⟨h3, ?_⟩
  rw [h3]
  decide

/-- C4 (amended): when no filename is supplied the only artifact of
`convert` is the returned byte buffer and no file effect occurs; when a
filename is supplied, `convert` itself ensures the `.dng` suffix, joins the
configured path and writes the buffer to that file. -/
theorem convert_output_boundary_amended (pl : Pipeline) (s : DNGState) (img : NDArray) :
    (convert pl s img "").1 = [] ∧
    (∀ fname p, (convert pl s img fname).2 = .ok (ConvertOutput.path p) →
      p = joinPath s.path (ensureDngSuffix fname) ∧
      ∃ buf, (convert pl s img fname).1 =
        [FileEffect.openWrite p, FileEffect.write p buf]) := by
  constructor
  · rcases convert_cases pl s img "" with ⟨e, hc⟩ | ⟨buf, _, hc⟩ | ⟨buf, hl, _⟩
    · rw [hc]
    · rw [hc]
    · simp at hl
  · intro fname p hok
    rcases convert_cases pl s img fname with ⟨e, hc⟩ | ⟨buf, _, hc⟩ | ⟨buf, _, hc⟩
    · rw [hc] at hok
      exact absurd hok (by simp)
    · rw [hc] at hok
      simp at hok
    · rw [hc] at hok
      simp only [Except.ok.injEq, ConvertOutput.path.injEq] at hok
      subst hok
      exact ⟨rfl, buf, by rw [hc]⟩

/-- C4 amended witness: the write branch evaluated on the concrete
configured state and filename `out`. -/
theorem convert_output_boundary_amended_witness :
    (convert basePipeline cfgState img0 "").1 = [] ∧
    (∀ fname p, (convert basePipeline cfgState img0 fname).2 = .ok (ConvertOutput.path p) →
      p = joinPath cfgState.path (ensureDngSuffix fname) ∧
      ∃ buf, (convert basePipeline cfgState img0 fname).1 =
        [FileEffect.openWrite p, FileEffect.write p buf]) :=
  convert_output_boundary_amended basePipeline cfgState img0

/-- C5: for a uint16 input frame, the core accepts the output of a
user-supplied filter exactly when its shape and its dtype (hence numeric
range) match the input, returns the filter output unchanged in that case,
and raises an error immediately after invocation otherwise. -/
theorem filter_postcondition_checked (raw : NDArray) (f : NDArray → NDArray)
    (hdt : raw.dtype = DType.uint16) :
    (((f raw).shape = raw.shape ∧ (f raw).dtype = raw.dtype) →
      filterStep raw (some f) = .ok (f raw)) ∧
    (∀ out, filterStep raw (some f) = .ok out →
      out = f raw ∧ out.shape = raw.shape ∧ out.dtype = raw.dtype) ∧
    (((f raw).shape ≠ raw.shape ∨ (f raw).dtype ≠ raw.dtype) →
      ∃ e, filterStep raw (some f) = .error e) ∧
    filterStep raw none = .ok raw := by
  refine ⟨?_, ?_, ?_, rfl⟩
  · rintro ⟨h1, h2⟩
    rw [hdt] at h2
    simp [filterStep, h1, h2]
  · intro out hout
    by_cases h1 : (f raw).shape = raw.shape
    · by_cases h2 : (f raw).dtype = DType.uint16
      · simp [filterStep, h1, h2] at hout
        exact ⟨hout.symm, hout ▸ h1, hout ▸ (hdt ▸ h2)⟩
      · simp [filterStep, h1, h2] at hout
    · simp [filterStep, h1] at hout
  · intro hbad
    by_cases h1 : (f raw).shape = raw.shape
    · have h2 : (f raw).dtype ≠ DType.uint16 := by
        rcases hbad with hb | hb
        · exact absurd h1 hb
        · rw [hdt] at hb; exact hb
      exact ⟨"array data type is invalid!", by simp [filterStep, h1, h2]⟩
    · exact ⟨"return array does not have the same shape!", by simp [filterStep, h1]⟩

/-- C5 witness: the identity filter on a concrete uint16 frame passes the
post-condition check and is returned unchanged. -/
theorem filter_postcondition_checked_witness :
    filterStep img0 (some (fun a => a)) = .ok img0 :=
  (filter_postcondition_checked img0 (fun a => a) rfl).1 ⟨rfl, rfl⟩

/-- C6: when the input dtype already indicates 16-bit samples (anything but
uint8), the RPICAM2DNG unpacker is an identity passthrough, the data check
emits the warning text without failing, and the check never fails on any
input. -/
theorem rpicam_passthrough_on_unpacked (img : NDArray) (hgt : Nat)
    (hd : img.dtype ≠ DType.uint8) :
    unpack_pixels hgt img = img ∧
    rpicam_data_condition img =
      .ok ["RAW Data is not in correct format. Already unpacked? "] ∧
    (∀ img2 : NDArray, ∃ w, rpicam_data_condition img2 = .ok w) := by
  refine ⟨by simp [unpack_pixels, hd], by simp [rpicam_data_condition, hd],
    fun img2 => ⟨_, rfl⟩⟩

/-- C6 witness: a uint16 frame passes through `unpack_pixels` unchanged
with only a warning from the data check. -/
theorem rpicam_passthrough_on_unpacked_witness :
    unpack_pixels 3040 img0 = img0 ∧
    rpicam_data_condition img0 =
      .ok ["RAW Data is not in correct format. Already unpacked? "] ∧
    (∀ img2 : NDArray, ∃ w, rpicam_data_condition img2 = .ok w) :=
  rpicam_passthrough_on_unpacked img0 3040 (by decide)

/-- C7: whenever `convert` fails, its file-effect trace is empty: the
output file is opened only after validation, unpacking, filtering and
buffer production have all succeeded, so a failed conversion never leaves a
partially written file. -/
theorem failed_convert_writes_no_file (pl : Pipeline) (s : DNGState) (img : NDArray)
    (fname : String) (e : String)
    (he : (convert pl s img fname).2 = .error e) :
    (convert pl s img fname).1 = [] := by
  rcases convert_cases pl s img fname with ⟨e2, hc⟩ | ⟨buf, _, hc⟩ | ⟨buf, _, hc⟩
  · rw [hc]
  · rw [hc]
  · rw [hc] at he
    exact absurd he (by simp)

/-- C7 witness: an unconfigured converter fails and performs no file
effect. -/
theorem failed_convert_writes_no_file_witness :
    (convert basePipeline initState img0 "f").1 = [] :=
  failed_convert_writes_no_file basePipeline initState img0 "f"
    "Options have not been set!" rfl

/-- Indexing the little-endian byte reinterpretation of a uint16 array. -/
lemma toBytesLE_get (frame : List Nat) (i : Nat) :
    (toBytesLE frame).get? (2 * i) = (frame.get? i).map (fun v => v % 256) ∧
    (toBytesLE frame).get? (2 * i + 1) = (frame.get? i).map (fun v => v / 256 % 256) := by
  induction frame generalizing i with
  | nil => simp [toBytesLE]
  | cons v rest ih =>
    cases i with
    | zero => simp [toBytesLE]
    | succ j =>
      have e1 : 2 * (j + 1) = 2 * j + 1 + 1 := by ring
      rw [e1]
      simpa [toBytesLE] using ih j

/-- Length of the little-endian byte reinterpretation. -/
lemma toBytesLE_length (frame : List Nat) : (toBytesLE frame).length = 2 * frame.length := by
  induction frame with
  | nil => simp [toBytesLE]
  | cons v rest ih => simp [toBytesLE, ih]; omega

/-- C8: uncompressed depth 8 produces the sample array cast to uint8 (one
byte per sample, the low 8 bits), and depth 16 produces the direct
little-endian byte reinterpretation (two bytes per sample); neither does
any bit-shuffling. -/
theorem byte_aligned_depths_cast_only (frame : List Nat) (i : Nat) :
    processTile 8 frame = some (frame.map (fun v => v % 256)) ∧
    processTile 16 frame = some (toBytesLE frame) ∧
    (frame.map (fun v => v % 256)).length = frame.length ∧
    (toBytesLE frame).length = 2 * frame.length ∧
    (frame.map (fun v => v % 256)).get? i = (frame.get? i).map (fun v => v % 256) ∧
    (toBytesLE frame).get? (2 * i) = (frame.get? i).map (fun v => v % 256) ∧
    (toBytesLE frame).get? (2 * i + 1) = (frame.get? i).map (fun v => v / 256 % 256) := by
  refine ⟨rfl, rfl, by simp, toBytesLE_length frame, by simp [List.get?_map],
    (toBytesLE_get frame i).1, (toBytesLE_get frame i).2⟩

/-- C9: for a bit depth outside 8, 10, 12, 14, 16 the uncompressed strip
computation falls through every branch leaving `tile` unassigned, so
`__process__` fails with the unbound-local error; for the five supported
depths a strip is always produced, making the failure branch unreachable. -/
theorem process_unsupported_depth_unbound_tile (bpp : Nat) (frame : List Nat)
    (hn : bpp ≠ 8 ∧ bpp ≠ 10 ∧ bpp ≠ 12 ∧ bpp ≠ 14 ∧ bpp ≠ 16) :
    processTile bpp frame = none ∧
    (∀ (pl : Pipeline) (img : NDArray) (w l : Nat),
      processBuffer pl img
        { imageWidth := some w, imageLength := some l, bitsPerSample := some bpp } false =
        .error "UnboundLocalError: local variable tile referenced before assignment") ∧
    (∀ b2 : Nat, (b2 = 8 ∨ b2 = 10 ∨ b2 = 12 ∨ b2 = 14 ∨ b2 = 16) →
      (processTile b2 frame).isSome = true) := by
  obtain ⟨h8, h10, h12, h14, h16⟩ := hn
  have hp : ∀ fr : List Nat, processTile bpp fr = none := by
    intro fr
    simp [processTile, h8, h10, h12, h14, h16]
  refine ⟨hp frame, fun pl img w l => ?_, fun b2 hb => ?_⟩
  · simp [processBuffer, hp img.data]
  · rcases hb with rfl | rfl | rfl | rfl | rfl <;> simp [processTile]

/-- C9 witness: bit depth 9 yields the unbound-local failure, while each
supported depth yields a strip. -/
theorem process_unsupported_depth_unbound_tile_witness :
    processTile 9 [5] = none ∧
    (∀ (pl : Pipeline) (img : NDArray) (w l : Nat),
      processBuffer pl img
        { imageWidth := some w, imageLength := some l, bitsPerSample := some 9 } false =
        .error "UnboundLocalError: local variable tile referenced before assignment") ∧
    (∀ b2 : Nat, (b2 = 8 ∨ b2 = 10 ∨ b2 = 12 ∨ b2 = 14 ∨ b2 = 16) →
      (processTile b2 [5]).isSome = true) :=
  process_unsupported_depth_unbound_tile 9 [5] (by decide)

/-- C10: any declared height other than the six known values keeps the
dispatch default `ver = 6`, i.e. the height-3040 geometry with reshape
(3040, 6112), crop (3040, 6084) and the modern scheme, and the unpacker
behaves exactly as it does for height 3040 instead of rejecting the
unknown geometry. -/
theorem unknown_height_falls_back_to_3040 (h : Nat)
    (hh : h ≠ 1944 ∧ h ≠ 2464 ∧ h ≠ 760 ∧ h ≠ 1080 ∧ h ≠ 1520 ∧ h ≠ 3040) :
    sensorVer h = 6 ∧
    geometry (sensorVer h) = ((3040, 6112), (3040, 6084)) ∧
    ¬ sensorVer h < 4 ∧
    ∀ img : NDArray, unpack_pixels h img = unpack_pixels 3040 img := by
  obtain ⟨h1, h2, h3, h4, h5, h6⟩ := hh
  have hv : sensorVer h = 6 := by
    simp [sensorVer, h1, h2, h3, h4, h5, h6]
  have hv2 : sensorVer 3040 = 6 := rfl
  refine ⟨hv, by rw [hv]; rfl, by rw [hv]; decide, fun img => ?_⟩
  unfold unpack_pixels
  rw [hv, hv2]

/-- C10 witness: height 12 is unknown and behaves as height 3040. -/
theorem unknown_height_falls_back_to_3040_witness :
    sensorVer 12 = 6 ∧
    geometry (sensorVer 12) = ((3040, 6112), (3040, 6084)) ∧
    ¬ sensorVer 12 < 4 ∧
    ∀ img : NDArray, unpack_pixels 12 img = unpack_pixels 3040 img :=
  unknown_height_falls_back_to_3040 12 (by decide)

end PiDNG
